import Mathlib

set_option maxRecDepth 40000

/-!
Verification of the Drupal ACR generator pipeline (Collector, Summarizer,
Aggregator, Renderer).  The JavaScript sources are embedded shallowly:
pure string manipulation is translated to structurally recursive functions
over character lists so that every definition evaluates inside the kernel,
and network interaction is modelled by an explicit list of per-attempt
outcomes.
-/

/-! ## Character-list string utilities

The JavaScript string primitives used by the sources (split, replace, trim,
includes) are reimplemented by structural recursion over `List Char` so
that concrete runs reduce by `decide`/`rfl`.  `wsChar` models the JS `\s`
class restricted to the ASCII whitespace actually produced by the pipeline.
-/

def wsChar (c : Char) : Bool :=
  c = ' ' || c = '\t' || c = '\n' || c = '\r'

/-- Strip `pat` from the front of `cs`; `none` when `cs` does not start with `pat`. -/
def takeAfter? : List Char → List Char → Option (List Char)
  | [], cs => some cs
  | _ :: _, [] => none
  | p :: ps, c :: cs => if p = c then takeAfter? ps cs else none

/-- Fuel-driven splitter: `splitCharsF fuel sep cs` splits `cs` at every
non-overlapping occurrence of the non-empty separator `sep`, mirroring the
JS `String.prototype.split` used throughout the sources.  The fuel is
`cs.length`, which always suffices. -/
def splitCharsF : Nat → List Char → List Char → List (List Char)
  | 0, _, cs => [cs]
  | _ + 1, _, [] => [[]]
  | fuel + 1, sep, c :: rest =>
    match takeAfter? sep (c :: rest) with
    | some rem => [] :: splitCharsF fuel sep rem
    | none =>
      match splitCharsF fuel sep rest with
      | [] => [[c]]
      | g :: gs => (c :: g) :: gs

def splitStr (sep s : String) : List String :=
  (splitCharsF s.data.length sep.data s.data).map fun g => ⟨g⟩

/-- Fuel-driven global replacement, mirroring JS `replace(/pat/g, rep)`. -/
def replaceF : Nat → List Char → List Char → List Char → List Char
  | 0, _, _, cs => cs
  | _ + 1, _, _, [] => []
  | fuel + 1, pat, rep, c :: rest =>
    match takeAfter? pat (c :: rest) with
    | some rem => rep ++ replaceF fuel pat rep rem
    | none => c :: replaceF fuel pat rep rest

def replaceStr (pat rep s : String) : String :=
  ⟨replaceF s.data.length pat.data rep.data s.data⟩

def dropWSChars : List Char → List Char
  | [] => []
  | c :: rest => if wsChar c then dropWSChars rest else c :: rest

/-- JS `String.prototype.trim` (for the ASCII whitespace of `wsChar`). -/
def jsTrim (s : String) : String :=
  ⟨(dropWSChars (dropWSChars s.data.reverse).reverse)⟩

/-- Collapse each maximal whitespace run to a single space,
mirroring JS `replace(/\s+/g, ' ')`. -/
def collapseWSAux : Bool → List Char → List Char
  | _, [] => []
  | prev, c :: rest =>
    if wsChar c then
      if prev then collapseWSAux true rest else ' ' :: collapseWSAux true rest
    else c :: collapseWSAux false rest

def collapseWS (s : String) : String :=
  ⟨collapseWSAux false s.data⟩

def joinStr (sep : String) : List String → String
  | [] => ""
  | [x] => x
  | x :: y :: rest => x ++ sep ++ joinStr sep (y :: rest)

/-- JS `String.prototype.includes` for a non-empty pattern. -/
def strContains (s pat : String) : Bool :=
  (splitStr pat s).length != 1

/-- The text after the first occurrence of `pat`, or `none` when `pat`
does not occur (models where a JS regex anchored at a literal label
starts matching). -/
def afterFirst (s pat : String) : Option String :=
  match splitStr pat s with
  | [] => none
  | [_] => none
  | _ :: rest => some (joinStr pat rest)

/-- The text before the first occurrence of `pat` (the whole text when
`pat` does not occur). -/
def cutAt (s pat : String) : String :=
  match splitStr pat s with
  | [] => s
  | g :: _ => g

def startsWithStr (s pat : String) : Bool :=
  (takeAfter? pat.data s.data).isSome


/-! ## Renderer (convert-to-openacr.js)

The renderer reads the consolidated CSV (one row per WCAG criterion) and
produces the criteria entries of the OpenACR YAML document.  The static
boilerplate of the YAML template is data-independent; the verified part is
the per-row mapping and the grouping of criterion entries into the three
conformance-level sections.
-/

/-- One row of the consolidated CSV, as read by the renderer
(fields `WCAG SC`, `ACR Assessment`, `ACR Summary`, `Issue Count`,
`Issue IDs`; the timestamp column is never read). -/
structure ConsolidatedItem where
  wcagSC : String
  acrAssessment : String
  acrSummary : String
  issueCount : String
  issueIds : String
deriving DecidableEq, Repr

/-- A criterion entry pushed onto one of the three level arrays.
`issueCount` is kept as the raw CSV string; the synthesized
not-applicable rows use `"0"` for the JS number `0`. -/
structure Criterion where
  num : String
  adherenceLevel : String
  notes : String
  issueCount : String
  issueIds : String
deriving DecidableEq, Repr

/-- `convertAssessmentToAdherence` from convert-to-openacr.js. -/
def convertAssessmentToAdherence (assessment : String) : String :=
  if assessment = "SUPPORTED" then "supports"
  else if assessment = "PARTIALLY_SUPPORTED" then "partially-supports"
  else if assessment = "NOT_SUPPORTED" then "does-not-support"
  else if assessment = "NOT_APPLICABLE" then "not-applicable"
  else if assessment = "REQUIRES_REVIEW" then "not-evaluated"
  else if assessment = "ERROR" then "not-evaluated"
  else "not-evaluated"

/-- The `specialMappings` table inside `convertWCAGFormat`. -/
def specialMappings : List (String × String) :=
  [("1410", "1.4.10"), ("1411", "1.4.11"), ("1412", "1.4.12"),
   ("2411", "2.4.11"), ("233", "2.3.3"), ("248", "2.4.8"),
   ("249", "2.4.9"), ("255", "2.5.5"), ("258", "2.5.8"),
   ("325", "3.2.5"), ("336", "3.3.6")]

/-- `convertWCAGFormat` from convert-to-openacr.js: turn a tag such as
`wcag111` into the dotted form `1.1.1`. -/
def convertWCAGFormat (wcagSC : String) : String :=
  if wcagSC = "" || !(startsWithStr wcagSC "wcag") then wcagSC
  else
    let numbers : String := ⟨wcagSC.data.drop 4⟩
    match (specialMappings.find? fun kv => decide (kv.1 = numbers)).map (·.2) with
    | some v => v
    | none =>
      if numbers.data.length = 3 then
        (⟨[numbers.data.getD 0 ' ']⟩ : String) ++ "." ++
          (⟨[numbers.data.getD 1 ' ']⟩ : String) ++ "." ++
          (⟨[numbers.data.getD 2 ' ']⟩ : String)
      else if numbers.data.length = 4 &&
          (startsWithStr numbers "1" || startsWithStr numbers "2" ||
           startsWithStr numbers "3" || startsWithStr numbers "4") then
        (⟨[numbers.data.getD 0 ' ']⟩ : String) ++ "." ++
          (⟨[numbers.data.getD 1 ' ']⟩ : String) ++ "." ++
          (⟨numbers.data.drop 2⟩ : String)
      else wcagSC

/-- The `wcagPositiveStatements` table: canned positive narratives keyed by
dotted criterion number. -/
def wcagPositiveStatements : List (String × String) :=
  [("1.1.1", "Images and form elements have text alternatives that adequately describe the purpose and meaning"),
   ("1.2.1", "Prerecorded audio and video are presented with captions, transcripts, or links to equivalent content"),
   ("1.2.2", "Audio recordings and videos with sound have synchronized captions"),
   ("1.2.3", "Audio description is provided for pre-recorded video"),
   ("1.3.1", "The meaning conveyed by visual elements is the same when communicated programmatically for assistive technology users"),
   ("1.3.2", "Keyboard users navigate the page in the same order the content is presented (top down, left to right)"),
   ("1.3.3", "Descriptions and instructions don't rely on visual cues, like color or position"),
   ("1.4.1", "Links and form elements use more than color (underlines, outlines) to convey state"),
   ("1.4.2", "Users can pause or stop automated audio/video and control its volume in the UI"),
   ("2.1.1", "Interactive elements are navigable and usable with keyboard commands"),
   ("2.1.2", "Users can move focus to/from interactive elements with keyboard alone"),
   ("2.1.4", "Custom character shortcuts are scoped to a focus event, use modifier keys, or can be customized or disabled"),
   ("2.2.1", "Users can turn off or modify timers or time limits"),
   ("2.2.2", "Users can pause animations or auto-updating content"),
   ("2.3.1", "Pages don't have flashing content that exceeds flashing content thresholds"),
   ("2.4.1", "Users can skip repeated navigation elements and go straight to main content"),
   ("2.4.2", "Web pages have a descriptive title"),
   ("2.4.3", "Focusable elements appear in the same order the content is presented (top down, left to right)"),
   ("2.4.4", "Screen reader users can determine a link's purpose by its text and surrounding context"),
   ("2.5.1", "Alternative methods using tap or a click are provided for path-based gestures (scrolling, drawing, zooming the page)"),
   ("2.5.2", "Users can dismiss, cancel, or undo single-pointer actions"),
   ("2.5.3", "Interactive elements have a programmatically derived accessible name that begins with or matches its visible label"),
   ("2.5.4", "Motion actuation functionality can be disabled to prevent accidental triggering"),
   ("3.1.1", "Pages have a 'lang' attribute that identifies the main language used for content"),
   ("3.2.1", "No major changes to the page that could disorient users are made on focus"),
   ("3.2.2", "No major changes to the page that could disorient users are made when a field changes value, unless the change is expected"),
   ("3.3.1", "Error messages are provided in text"),
   ("3.3.2", "Fields for user input have text labels or instructions"),
   ("4.1.1", "Parsing of markup does not cause errors for assistive technologies"),
   ("4.1.2", "Interactive elements have a programmatically derived accessible name, role, and value/state"),
   ("1.2.4", "Live audio/video feeds have captions"),
   ("1.2.5", "Meaningful information that's not conveyed in dialogue is described in captions"),
   ("1.3.4", "On a mobile device, the site is fully functional whether in portrait or landscape orientation"),
   ("1.3.5", "Form inputs are correctly labeled for screen reader users"),
   ("1.4.3", "Text and links meet and often exceed minimum color contrast requirements"),
   ("1.4.4", "The site remains legible and fully functional when users zoom the screen by 200% or more"),
   ("1.4.5", "Text is only baked into an image when it needs to be, like for the site logo"),
   ("1.4.10", "The site uses responsive development techniques so that content and functionality are retained regardless of device or viewport size (mobile, tablet, desktop)"),
   ("1.4.11", "Form elements and buttons meet and often exceed minimum color contrast requirements"),
   ("1.4.12", "Line height, letter, paragraph, and word spacing meet size requirements relative to font size"),
   ("1.4.13", "Tooltips, which appear on hover and focus, persist until the user moves the pointer or focus elsewhere"),
   ("2.4.5", "Users can reach pages by using search, global navigation, sidebar navigation, or links within page content"),
   ("2.4.6", "Headings and labels are accurately described"),
   ("2.4.7", "Interactive elements have a visible focus state when navigating by keyboard"),
   ("2.4.11", "Interactive elements are at least partially visible (not obscured by other content) when focused"),
   ("2.5.7", "When dragging actions are required, users have an alternate, single-pointer action like tap or click to perform the same task"),
   ("2.5.8", "Interactive elements are at least 24x24 pixels or have sufficient space around them to prevent errant clicks, unless they're part of a sentence"),
   ("3.1.2", "Sections of content that do not use the main page language have a 'lang' attribute that identifies the language used"),
   ("3.2.3", "Navigation elements appear in the same location and order across the site"),
   ("3.2.4", "Interactive elements with the same function have the same name, role, and behavior"),
   ("3.3.3", "Corrective actions are suggested when users make an input error"),
   ("3.3.4", "Forms that collect user data can be reviewed and confirmed or corrected"),
   ("4.1.3", "Status messages are announced to users without having to focus on status message content"),
   ("1.2.6", "Sign Language interpretation is provided for audio content"),
   ("1.2.7", "Extended audio description is provided for video content where pauses in dialogue are insufficient"),
   ("1.2.8", "A full text alternative is provided for pre-recorded synchronized media"),
   ("1.2.9", "Audio-only live content has alternative access methods"),
   ("1.3.6", "The purpose of user interface components can be programmatically determined"),
   ("1.4.6", "Text has a contrast ratio of at least 7:1 with its background"),
   ("1.4.7", "Audio content has minimal or no background noise to aid comprehension"),
   ("1.4.8", "Text presentation can be customized without loss of content or functionality"),
   ("1.4.9", "Images of text are used only for decoration or when essential to the information"),
   ("2.1.3", "All page functionality is available from a keyboard without requiring specific timings"),
   ("2.2.3", "Timing is not an essential part of the event or activity"),
   ("2.2.4", "Interruptions can be postponed or suppressed by the user"),
   ("2.2.5", "When a session expires, the user can continue without loss of data"),
   ("2.2.6", "Users are warned of the duration of inactivity that will cause data loss"),
   ("2.3.2", "Web pages do not contain content that flashes more than three times in any one second period"),
   ("2.3.3", "Animation from interactions can be disabled unless essential to functionality"),
   ("2.4.8", "Information about the user's location within a website is available"),
   ("2.4.9", "Link purpose can be identified from link text alone"),
   ("2.4.10", "Section headings are used to organize content"),
   ("2.5.5", "The size of the target for pointer inputs is at least 44 by 44 CSS pixels"),
   ("2.5.6", "Input mechanisms are available for users who cannot perform complex gestures"),
   ("3.1.3", "The meaning of unusual words, phrases, idioms, and abbreviations can be determined"),
   ("3.1.4", "The expansion or explanation of abbreviations can be determined"),
   ("3.1.5", "Reading level is lower secondary education level or supplemental content is available"),
   ("3.1.6", "The pronunciation of words where meanings is ambiguous can be determined"),
   ("3.2.5", "Changes of context are initiated only by user request or a mechanism is available to turn off such changes"),
   ("3.3.5", "Context-sensitive help is available"),
   ("3.3.6", "Error prevention mechanisms are provided for submissions that are irreversible or financial")]

/-- `getPositiveStatement`: table lookup, `null` when absent. -/
def getPositiveStatement (wcagNum : String) : Option String :=
  (wcagPositiveStatements.find? fun kv => decide (kv.1 = wcagNum)).map (·.2)

/-- The static forced-not-applicable list `naList`. -/
def naList : List String :=
  ["1.2.1", "1.2.3", "1.2.4", "1.2.5", "1.4.2", "2.1.4",
   "2.2.1", "2.2.2", "2.3.1", "2.5.4", "4.1.1"]

/-- `isNotApplicable`. -/
def isNotApplicable (wcagNum : String) : Bool :=
  naList.contains wcagNum

/-- The WCAG 2.2 criteria excluded from the output (`wcag22Criteria`). -/
def wcag22Criteria : List String :=
  ["2.4.11", "2.4.12", "2.4.13", "2.5.7", "2.5.8", "3.2.6", "3.3.7"]

/-- `getWCAGLevel`: classify a dotted criterion number as level A, AA or
AAA; unknown numbers default to AA. -/
def getWCAGLevel (wcagNum : String) : String :=
  let levelACriteria : List String :=
    ["1.1.1", "1.2.1", "1.2.2", "1.2.3", "1.3.1", "1.3.2", "1.3.3",
     "1.4.1", "1.4.2", "2.1.1", "2.1.2", "2.1.4", "2.2.1", "2.2.2",
     "2.3.1", "2.4.1", "2.4.2", "2.4.3", "2.4.4", "2.5.1", "2.5.2",
     "2.5.3", "2.5.4", "3.1.1", "3.2.1", "3.2.2", "3.3.1", "3.3.2",
     "4.1.1", "4.1.2"]
  let levelAACriteria : List String :=
    ["1.2.4", "1.2.5", "1.3.4", "1.3.5", "1.4.3", "1.4.4", "1.4.5",
     "1.4.10", "1.4.11", "1.4.12", "1.4.13", "2.4.5", "2.4.6", "2.4.7",
     "3.1.2", "3.2.3", "3.2.4", "3.3.3", "3.3.4", "4.1.3"]
  let levelAAACriteria : List String :=
    ["1.2.6", "1.2.7", "1.2.8", "1.2.9", "1.3.6", "1.4.6", "1.4.7",
     "1.4.8", "1.4.9", "2.1.3", "2.2.3", "2.2.4", "2.2.5", "2.2.6",
     "2.3.2", "2.3.3", "2.4.8", "2.4.9", "2.4.10", "2.5.5", "2.5.6",
     "3.1.3", "3.1.4", "3.1.5", "3.1.6", "3.2.5", "3.3.5", "3.3.6"]
  if levelACriteria.contains wcagNum then "A"
  else if levelAACriteria.contains wcagNum then "AA"
  else if levelAAACriteria.contains wcagNum then "AAA"
  else "AA"

/-- The body of the first `consolidatedData.forEach` loop of
`generateOpenACR`: `none` when the row is skipped as a WCAG 2.2
criterion, otherwise the criterion entry that is pushed onto a level
array. -/
def processItem (item : ConsolidatedItem) : Option Criterion :=
  let wcagNum := convertWCAGFormat item.wcagSC
  if wcag22Criteria.contains wcagNum then none
  else
    let adherenceLevel := convertAssessmentToAdherence item.acrAssessment
    let notes := if item.acrSummary = "" then "No assessment available" else item.acrSummary
    if isNotApplicable wcagNum then
      some { num := wcagNum, adherenceLevel := "not-applicable",
             notes := "Not applicable.",
             issueCount := item.issueCount, issueIds := item.issueIds }
    else
      let notes :=
        if adherenceLevel = "supports" then
          match getPositiveStatement wcagNum with
          | some positiveStatement => positiveStatement
          | none => notes
        else notes
      some { num := wcagNum, adherenceLevel := adherenceLevel, notes := notes,
             issueCount := item.issueCount, issueIds := item.issueIds }

/-- The `processedWcagNums` set: all converted codes of the consolidated
rows that are not skipped as WCAG 2.2 criteria. -/
def processedWcagNums (consolidatedData : List ConsolidatedItem) : List String :=
  consolidatedData.filterMap fun item =>
    let wcagNum := convertWCAGFormat item.wcagSC
    if wcag22Criteria.contains wcagNum then none else some wcagNum

/-- The `naList.forEach` loop: synthesize a zero-member not-applicable
entry for every forced-not-applicable code absent from the processed
data (the JS `issueCount: 0` number is rendered as the string `"0"`). -/
def missingNACriteria (consolidatedData : List ConsolidatedItem) : List Criterion :=
  naList.filterMap fun wcagNum =>
    if (processedWcagNums consolidatedData).contains wcagNum then none
    else some { num := wcagNum, adherenceLevel := "not-applicable",
                notes := "Not applicable.", issueCount := "0", issueIds := "" }

/-- The three level arrays `levelACriteria`, `levelAACriteria`,
`levelAAACriteria` accumulated by `generateOpenACR`. -/
structure LevelBuckets where
  levelA : List Criterion
  levelAA : List Criterion
  levelAAA : List Criterion
deriving DecidableEq, Repr

/-- Push one criterion entry onto the array selected by `getWCAGLevel`. -/
def addToBuckets (b : LevelBuckets) (c : Criterion) : LevelBuckets :=
  let wcagLevel := getWCAGLevel c.num
  if wcagLevel = "A" then { b with levelA := b.levelA ++ [c] }
  else if wcagLevel = "AA" then { b with levelAA := b.levelAA ++ [c] }
  else { b with levelAAA := b.levelAAA ++ [c] }

/-- All criterion entries produced by `generateOpenACR` for the given
consolidated rows: the processed rows followed by the synthesized
not-applicable rows, distributed over the three level arrays. -/
def generateBuckets (consolidatedData : List ConsolidatedItem) : LevelBuckets :=
  ((consolidatedData.filterMap processItem) ++ missingNACriteria consolidatedData).foldl
    addToBuckets ⟨[], [], []⟩

/-- The criterion entries in the order they appear in the emitted YAML:
the level A section, then the level AA section, then the level AAA
section. -/
def renderedCriteria (consolidatedData : List ConsolidatedItem) : List Criterion :=
  let b := generateBuckets consolidatedData
  b.levelA ++ b.levelAA ++ b.levelAAA


/-! ## Summarizer response parsing (generate-issue-summaries.js)

The four labeled sections are extracted with regexes of the shape
`/LABEL:\s*(.*?)(?=NEXT:|$)/s` followed by `.trim()`.  Such a regex
matches iff `LABEL:` occurs in the text; the lazy group then captures
everything from the end of the greedy `\s*` up to the first occurrence of
`NEXT:` (or the end of the text).  `jsRegexSection` reproduces exactly
that, with the final `.trim()` absorbing the end-of-text `$`-before-final-
newline subtlety.
-/

def jsRegexSection (text label nextLabel : String) : Option String :=
  (afterFirst text label).map fun after =>
    jsTrim (cutAt (⟨dropWSChars after.data⟩ : String) nextLabel)

/-- The variant `/LABEL:\s*(.*?)$/s` that captures to the end of the text. -/
def jsRegexToEnd (text label : String) : Option String :=
  (afterFirst text label).map fun after => jsTrim (⟨dropWSChars after.data⟩ : String)

/-- The four per-issue summary fields produced by `generateSummaries`. -/
structure FourSummaries where
  acrNote : String
  developerNote : String
  titleAssessment : String
  wcagAssessment : String
deriving DecidableEq, Repr

/-- The response-parsing tail of `generateSummaries`: extract the four
labeled sections from the AI response text, substituting the fixed
placeholder when a label is missing. -/
def parseSummaryResponse (responseText : String) : FourSummaries where
  acrNote := (jsRegexSection responseText "ACR_NOTE:" "DEVELOPER_NOTE:").getD
    "Unable to generate ACR note"
  developerNote := (jsRegexSection responseText "DEVELOPER_NOTE:" "TITLE_ASSESSMENT:").getD
    "Unable to generate developer note"
  titleAssessment := (jsRegexSection responseText "TITLE_ASSESSMENT:" "WCAG_ASSESSMENT:").getD
    "Unable to assess title"
  wcagAssessment := (jsRegexToEnd responseText "WCAG_ASSESSMENT:").getD
    "Unable to assess WCAG classification"

/-! ## Aggregator (consolidate-wcag-summaries.js)

One call to the Gemini API is modelled by the list of outcomes of its
individual attempts.  `AttemptResult.success` stands for a 2xx response
whose JSON carries a candidate with the given text (responses with a 2xx
status but malformed JSON do not occur in this model).
-/

inductive AttemptResult where
  | success (responseText : String)
  | httpError (status : Nat) (body : String)
  | networkError (msg : String)
deriving DecidableEq, Repr

/-- What the promise returned by `fetchWithRetry` does: resolve with an ok
response, resolve with `undefined` (the loop runs out without returning),
or reject. -/
inductive FetchResult where
  | resp (responseText : String)
  | undef
  | thrown (msg : String)
deriving DecidableEq, Repr

/-- `fetchWithRetry` of consolidate-wcag-summaries.js over the outcomes of
its attempts (one list element per loop iteration, so the list length is
the `retries` argument, 5 by default).  A 503/429 waits and continues —
also on the final attempt, after which the loop exits and the function
implicitly returns `undefined`.  Any other non-ok outcome reaches the
`catch`, which rethrows only on the final attempt. -/
def fetchWithRetry : List AttemptResult → FetchResult
  | [] => .undef
  | [a] =>
    match a with
    | .success t => .resp t
    | .httpError status body =>
      if status = 503 || status = 429 then .undef
      else if 400 ≤ status then .thrown ("HTTP " ++ toString status ++ ": " ++ body)
      else .undef
    | .networkError msg => .thrown msg
  | a :: b :: rest =>
    match a with
    | .success t => .resp t
    | .httpError _ _ => fetchWithRetry (b :: rest)
    | .networkError _ => fetchWithRetry (b :: rest)

/-- One member of a criterion group (built in `consolidateWCAGSummaries`
from a detailed-issue row joined with its summary row). -/
structure WCAGGroupIssue where
  issueId : String
  wcagSC : String
  title : String
  acrNote : String
deriving DecidableEq, Repr

/-- The value returned by `generateWCAGSummary`. -/
structure ConsolidatedSummary where
  assessment : String
  summary : String
  issueIds : String
deriving DecidableEq, Repr

/-- The placeholder summary used for persistent API-overload errors. -/
def requiresReviewPlaceholder (n : Nat) : String :=
  "Based on " ++ toString n ++ " identified issue" ++ (if 1 < n then "s" else "") ++
    ", automatic assessment could not be completed due to API limitations. " ++
    "Manual review required to determine conformance level and detailed impact " ++
    "analysis. Issues affect accessibility across multiple user groups and " ++
    "require technical evaluation."

/-- The TypeError message Node produces when `response` is `undefined` and
`response.json()` is evaluated. -/
def undefinedJsonMsg : String := "Cannot read properties of undefined (reading 'json')"

/-- The `catch` block of `generateWCAGSummary`: the REQUIRES_REVIEW
sentinel is produced only when the error message mentions `503` or
`overloaded`. -/
def summaryCatch (issues : List WCAGGroupIssue) (issueIds msg : String) :
    ConsolidatedSummary :=
  if strContains msg "503" || strContains msg "overloaded" then
    ⟨"REQUIRES_REVIEW", requiresReviewPlaceholder issues.length, issueIds⟩
  else
    ⟨"ERROR", "Error generating summary: " ++ msg, issueIds⟩

/-- `generateWCAGSummary`: one consolidated assessment for a criterion
group, given the outcomes of the attempts of its API call.  When
`fetchWithRetry` resolves `undefined`, `response.json()` throws the
TypeError whose message is `undefinedJsonMsg`, which the `catch` turns
into a result like any other error. -/
def generateWCAGSummary (issues : List WCAGGroupIssue) (attempts : List AttemptResult) :
    ConsolidatedSummary :=
  let issueIds := joinStr ", " (issues.map (·.issueId))
  match fetchWithRetry attempts with
  | .resp responseText =>
    let assessment := (jsRegexSection responseText "ACR_ASSESSMENT:" "ACR_SUMMARY:").getD
      "UNKNOWN"
    let summary := (jsRegexToEnd responseText "ACR_SUMMARY:").getD
      "Unable to generate summary"
    ⟨assessment, summary, issueIds⟩
  | .undef => summaryCatch issues issueIds undefinedJsonMsg
  | .thrown msg => summaryCatch issues issueIds msg

/-- One row of the detailed-issues CSV, as read by the consolidator
(only the fields it uses). -/
structure DetailedIssue where
  wcagSC : String
  issueId : String
  title : String
deriving DecidableEq, Repr

/-- One row of the issue-summaries CSV (only the fields the consolidator
uses). -/
structure IssueSummaryRow where
  issueId : String
  acrNote : String
deriving DecidableEq, Repr

/-- Lookup in the `summaryMap` built with `Map.set` (a later row with the
same id overwrites an earlier one). -/
def summaryMapGet (summaries : List IssueSummaryRow) (id : String) :
    Option IssueSummaryRow :=
  summaries.reverse.find? fun s => decide (s.issueId = id)

/-- Append `g` to the member list of the group keyed `key`. -/
def pushGroup (groups : List (String × List WCAGGroupIssue)) (key : String)
    (g : WCAGGroupIssue) : List (String × List WCAGGroupIssue) :=
  groups.map fun kv => if kv.1 = key then (kv.1, kv.2 ++ [g]) else kv

/-- One iteration of the grouping loop: create the group on first sight of
a criterion code, and push the member only when its summary row exists. -/
def groupStep (summaries : List IssueSummaryRow)
    (groups : List (String × List WCAGGroupIssue)) (issue : DetailedIssue) :
    List (String × List WCAGGroupIssue) :=
  let groups1 :=
    if groups.any fun kv => decide (kv.1 = issue.wcagSC) then groups
    else groups ++ [(issue.wcagSC, [])]
  match summaryMapGet summaries issue.issueId with
  | none => groups1
  | some s =>
    pushGroup groups1 issue.wcagSC
      ⟨issue.issueId, issue.wcagSC, issue.title,
        if s.acrNote = "" then "No ACR note available" else s.acrNote⟩

/-- The `wcagGroups` map in JS insertion order. -/
def wcagGroups (detailed : List DetailedIssue) (summaries : List IssueSummaryRow) :
    List (String × List WCAGGroupIssue) :=
  detailed.foldl (groupStep summaries) []

/-- One row of the consolidated output CSV. -/
structure ConsolidatedRow where
  wcagSC : String
  assessment : String
  summary : String
  issueCount : Nat
  issueIds : String
deriving DecidableEq, Repr

/-- The result row pushed in the main loop for one criterion group.  The
network behaviour of each main-loop API call is given by the oracle
`att1` mapping a criterion code to its attempt outcomes. -/
def mainPassRow (att1 : String → List AttemptResult)
    (kv : String × List WCAGGroupIssue) : ConsolidatedRow :=
  let cs := generateWCAGSummary kv.2 (att1 kv.1)
  ⟨kv.1, cs.assessment, cs.summary, kv.2.length, cs.issueIds⟩

/-- Overwrite the first element satisfying `p` (the composite of
`findIndex` returning a non-negative index and the assignment
`results[existingIndex] = {...}`; when nothing matches the list is
unchanged, as with index -1). -/
def replaceFirst (p : α → Bool) (x : α) : List α → List α
  | [] => []
  | a :: l => if p a then x :: l else a :: replaceFirst p x l

/-- The retry loop body: rerun the group (with the retry-pass oracle
`att2`) and overwrite the first result row with the same criterion code. -/
def retryPass (att2 : String → List AttemptResult) (results : List ConsolidatedRow)
    (kv : String × List WCAGGroupIssue) : List ConsolidatedRow :=
  let cs := generateWCAGSummary kv.2 (att2 kv.1)
  replaceFirst (fun r => decide (r.wcagSC = kv.1))
    ⟨kv.1, cs.assessment, cs.summary, kv.2.length, cs.issueIds⟩ results

/-- Lexicographic comparison of character lists (the order
`localeCompare` induces on the plain ASCII criterion codes). -/
def charListLe : List Char → List Char → Bool
  | [], _ => true
  | _ :: _, [] => false
  | a :: as, b :: bs => if a = b then charListLe as bs else decide (a < b)

def strLe (s t : String) : Bool :=
  charListLe s.data t.data

/-- Insert into a sorted list (used to model `Array.prototype.sort`, whose
result is sorted with respect to the comparator). -/
def insertLe (le : α → α → Bool) (a : α) : List α → List α
  | [] => [a]
  | b :: bs => if le a b then a :: b :: bs else b :: insertLe le a bs

def sortByLe (le : α → α → Bool) (l : List α) : List α :=
  l.foldr (insertLe le) []

/-- `consolidateWCAGSummaries` (the part after the two CSVs are read):
group the detailed issues by criterion code, produce one result row per
group, run the 30-second-cooldown retry pass over the groups whose main
pass came back `REQUIRES_REVIEW`, and sort the rows by criterion code
(`localeCompare` modelled as lexicographic string order).  The JS loop
fills `results` and `failedEntries` in one pass over the deterministic
`generateWCAGSummary`; the map and the filter below compute the same two
lists. -/
def consolidateWCAGSummaries (detailed : List DetailedIssue)
    (summaries : List IssueSummaryRow) (att1 att2 : String → List AttemptResult) :
    List ConsolidatedRow :=
  let groups := wcagGroups detailed summaries
  let results := groups.map (mainPassRow att1)
  let failedEntries := groups.filter fun kv =>
    decide ((generateWCAGSummary kv.2 (att1 kv.1)).assessment = "REQUIRES_REVIEW")
  let results2 := failedEntries.foldl (retryPass att2) results
  sortByLe (fun a b => strLe a.wcagSC b.wcagSC) results2


/-! ## Collector (extract-wcag-issues.js)

`fetchWithTimeout` is modelled over the outcomes of its individual fetch
attempts.  The source file is an ES module, so it runs in strict mode:
the retry path executes `controller.signal = newController.signal`, an
assignment to the getter-only `signal` accessor of `AbortController`
(and then `timeoutId = newTimeoutId`, an assignment to a `const`), which
throws a TypeError.
-/

/-- Outcome of one `fetch` attempt: resolution, or rejection
(connection-level error or the abort triggered by the timeout). -/
inductive FetchOutcome where
  | ok (body : String)
  | failure (msg : String)
deriving DecidableEq, Repr

/-- What the promise returned by `fetchWithTimeout` does. -/
inductive CollectorFetchResult where
  | resolved (body : String)
  | fetchError (msg : String)
  | typeError (msg : String)
  | undef
deriving DecidableEq, Repr

/-- The strict-mode TypeError raised by assigning to the getter-only
`signal` property on the retry path. -/
def signalSetterMsg : String :=
  "Cannot set property signal of #<AbortController> which has only a getter"

/-- `fetchWithTimeout` over the outcomes of its attempts (one list element
per loop iteration; the list length is the `retries` argument, 3 by
default).  A failure on the final attempt is rethrown; a failure on any
earlier attempt runs the backoff delay and then hits the strict-mode
TypeError of the retry path, which propagates out of the function. -/
def fetchWithTimeout : List FetchOutcome → CollectorFetchResult
  | [] => .undef
  | [a] =>
    match a with
    | .ok body => .resolved body
    | .failure msg => .fetchError msg
  | a :: _ :: _ =>
    match a with
    | .ok body => .resolved body
    | .failure _ => .typeError signalSetterMsg

/-- The capture groups one of the four issue-link patterns of
`parseIssuesFromHTML` extracted from one HTML anchor.  `project` is the
project capture when the pattern has one, or the project recovered from
the url for the node-link pattern (`none` when that secondary match
fails).  The regular expressions themselves are page-scraping details;
their capture results are the model's input. -/
structure RawMatch where
  url : String
  project : Option String
  issueId : String
  title : String
deriving DecidableEq, Repr

/-- One issue record pushed by `parseIssuesFromHTML`
(the `extractedAt` timestamp is not modelled). -/
structure CollectedIssue where
  wcagCriteria : String
  issueId : String
  title : String
  url : String
  project : String
deriving DecidableEq, Repr

/-- The title clean-up: entity decoding, whitespace normalization, trim. -/
def cleanTitle (title : String) : String :=
  jsTrim (collapseWS
    (replaceStr "&#39;" "'"
      (replaceStr "&quot;" "\""
        (replaceStr "&gt;" ">"
          (replaceStr "&lt;" "<"
            (replaceStr "&amp;" "&" title))))))

def mkCollectedIssue (wcagCriteria : String) (m : RawMatch) : CollectedIssue :=
  let project := m.project.getD "unknown"
  { wcagCriteria := wcagCriteria
    issueId := m.issueId
    title := cleanTitle m.title
    url := if startsWithStr m.url "http" then m.url else "https://www.drupal.org" ++ m.url
    project := if project = "" then "unknown" else project }

/-- One iteration of the match loop: skip matches without id or title,
skip ids already in the `foundIssues` set, otherwise record the id and
push the cleaned record. -/
def parseStep (wcagCriteria : String) (st : List String × List CollectedIssue)
    (m : RawMatch) : List String × List CollectedIssue :=
  if m.issueId = "" || m.title = "" then st
  else if st.1.contains m.issueId then st
  else (st.1 ++ [m.issueId], st.2 ++ [mkCollectedIssue wcagCriteria m])

/-- `parseIssuesFromHTML` over the matches produced by its four patterns
(in pattern order, each pattern's matches in document order), for one
criterion page. -/
def parseIssuesFromHTML (ms : List RawMatch) (wcagCriteria : String) :
    List CollectedIssue :=
  (ms.foldl (parseStep wcagCriteria) ([], [])).2

/-! ## CSV parsing (generate-issue-summaries.js / consolidate-wcag-summaries.js)

Both stages share the same `parseCSV`/`parseCSVLine` pair: the file is
split on newlines first, so a quoted field with an embedded line break is
torn across several "lines", and only lines whose parsed field count
matches the header count produce a row.
-/

/-- The character loop of `parseCSVLine` (line characters, `inQuotes`
state, current field, fields pushed so far). -/
def parseCSVLineChars : List Char → Bool → List Char → List String → List String
  | [], _, current, values => values ++ [jsTrim ⟨current⟩]
  | [c], inQuotes, current, values =>
    -- last character: the loop body runs once more, then the final field is pushed
    if c = '"' then values ++ [jsTrim ⟨current⟩]
    else if c = ',' && !inQuotes then
      (values ++ [jsTrim ⟨current⟩]) ++ [jsTrim (⟨[]⟩ : String)]
    else values ++ [jsTrim ⟨current ++ [c]⟩]
  | c :: c2 :: rest, inQuotes, current, values =>
    if c = '"' then
      if inQuotes && c2 = '"' then
        parseCSVLineChars rest inQuotes (current ++ ['"']) values
      else
        parseCSVLineChars (c2 :: rest) (!inQuotes) current values
    else if c = ',' && !inQuotes then
      parseCSVLineChars (c2 :: rest) inQuotes [] (values ++ [jsTrim ⟨current⟩])
    else
      parseCSVLineChars (c2 :: rest) inQuotes (current ++ [c]) values

/-- `parseCSVLine`: split one physical line into trimmed fields,
honouring quotes and doubled-quote escapes. -/
def parseCSVLine (line : String) : List String :=
  parseCSVLineChars line.data false [] []

/-- The nonblank physical lines of the file
(`csvContent.split('\n').filter(line => line.trim())`). -/
def csvLines (csvContent : String) : List String :=
  (splitStr "\n" csvContent).filter fun line => decide (jsTrim line ≠ "")

/-- The header fields: the first nonblank line split on commas, quotes
stripped, trimmed. -/
def csvHeaders (csvContent : String) : List String :=
  match csvLines csvContent with
  | [] => []
  | headerLine :: _ => (splitStr "," headerLine).map fun h => jsTrim (replaceStr "\"" "" h)

/-- `parseCSV`: one association row (header, value) per data line whose
parsed field count equals the header count; all other lines contribute
nothing.  (The JS builds an object keyed by the headers; a fully blank
input, on which the JS would crash reading `lines[0]`, is mapped to the
empty list and is outside every claim.) -/
def parseCSV (csvContent : String) : List (List (String × String)) :=
  match csvLines csvContent with
  | [] => []
  | _ :: dataLines =>
    let headers := csvHeaders csvContent
    dataLines.filterMap fun line =>
      let values := parseCSVLine line
      if values.length = headers.length then some (headers.zip values) else none

/-- `escapeCSV` (identical in both stages): quote-wrap a field containing
a quote, comma or line break, doubling embedded quotes. -/
def escapeCSV (field : String) : String :=
  if strContains field "\"" || strContains field "," ||
      strContains field "\n" || strContains field "\r" then
    "\"" ++ replaceStr "\"" "\"\"" field ++ "\""
  else field


/-! ## Renderer lemmas -/

theorem processItem_skip {item : ConsolidatedItem}
    (h : convertWCAGFormat item.wcagSC ∈ wcag22Criteria) :
    processItem item = none := by
  simp [processItem, h]

theorem processItem_forced {item : ConsolidatedItem}
    (h22 : convertWCAGFormat item.wcagSC ∉ wcag22Criteria)
    (hna : isNotApplicable (convertWCAGFormat item.wcagSC) = true) :
    processItem item =
      some ⟨convertWCAGFormat item.wcagSC, "not-applicable", "Not applicable.",
        item.issueCount, item.issueIds⟩ := by
  simp [processItem, h22, hna]

theorem processItem_normal {item : ConsolidatedItem}
    (h22 : convertWCAGFormat item.wcagSC ∉ wcag22Criteria)
    (hna : isNotApplicable (convertWCAGFormat item.wcagSC) = false) :
    processItem item =
      some ⟨convertWCAGFormat item.wcagSC,
        convertAssessmentToAdherence item.acrAssessment,
        (if convertAssessmentToAdherence item.acrAssessment = "supports" then
          match getPositiveStatement (convertWCAGFormat item.wcagSC) with
          | some positiveStatement => positiveStatement
          | none => if item.acrSummary = "" then "No assessment available" else item.acrSummary
        else if item.acrSummary = "" then "No assessment available" else item.acrSummary),
        item.issueCount, item.issueIds⟩ := by
  simp [processItem, h22, hna]

theorem processItem_num {item : ConsolidatedItem} {c : Criterion}
    (h : processItem item = some c) : c.num = convertWCAGFormat item.wcagSC := by
  by_cases h22 : convertWCAGFormat item.wcagSC ∈ wcag22Criteria
  · rw [processItem_skip h22] at h; exact absurd h (by simp)
  · cases hna : isNotApplicable (convertWCAGFormat item.wcagSC) with
    | true => rw [processItem_forced h22 hna] at h; cases h; rfl
    | false => rw [processItem_normal h22 hna] at h; cases h; rfl

theorem processItem_na {item : ConsolidatedItem} {c : Criterion}
    (h : processItem item = some c) (hna : isNotApplicable c.num = true) :
    c.adherenceLevel = "not-applicable" ∧ c.notes = "Not applicable." := by
  have hnum := processItem_num h
  rw [hnum] at hna
  by_cases h22 : convertWCAGFormat item.wcagSC ∈ wcag22Criteria
  · rw [processItem_skip h22] at h; exact absurd h (by simp)
  · rw [processItem_forced h22 hna] at h
    cases h
    exact ⟨rfl, rfl⟩

theorem missingNA_mem {data : List ConsolidatedItem} {c : Criterion}
    (h : c ∈ missingNACriteria data) :
    c.num ∈ naList ∧ c.adherenceLevel = "not-applicable" ∧
      c.notes = "Not applicable." ∧ c.issueCount = "0" ∧ c.issueIds = "" := by
  unfold missingNACriteria at h
  rw [List.mem_filterMap] at h
  obtain ⟨n, hn, hc⟩ := h
  split at hc
  · exact absurd hc (by simp)
  · cases hc
    exact ⟨hn, rfl, rfl, rfl, rfl⟩

theorem buckets_foldl (l : List Criterion) (b : LevelBuckets) :
    l.foldl addToBuckets b =
      ⟨b.levelA ++ l.filter (fun c => decide (getWCAGLevel c.num = "A")),
       b.levelAA ++ l.filter
         (fun c => decide (getWCAGLevel c.num = "AA") && !decide (getWCAGLevel c.num = "A")),
       b.levelAAA ++ l.filter
         (fun c => !decide (getWCAGLevel c.num = "AA") && !decide (getWCAGLevel c.num = "A"))⟩ := by
  induction l generalizing b with
  | nil => simp
  | cons c l ih =>
    rw [List.foldl_cons, ih]
    unfold addToBuckets
    by_cases hA : getWCAGLevel c.num = "A"
    · simp [hA, List.filter_cons, List.append_assoc]
    · by_cases hAA : getWCAGLevel c.num = "AA"
      · simp [hA, hAA, List.filter_cons, List.append_assoc]
      · simp [hA, hAA, List.filter_cons, List.append_assoc]

/-- The full list the renderer distributes over the three level arrays. -/
def rendererRows (data : List ConsolidatedItem) : List Criterion :=
  data.filterMap processItem ++ missingNACriteria data

theorem renderedCriteria_eq (data : List ConsolidatedItem) :
    renderedCriteria data =
      (rendererRows data).filter (fun c => decide (getWCAGLevel c.num = "A")) ++
      ((rendererRows data).filter
        (fun c => decide (getWCAGLevel c.num = "AA") && !decide (getWCAGLevel c.num = "A")) ++
      (rendererRows data).filter
        (fun c => !decide (getWCAGLevel c.num = "AA") && !decide (getWCAGLevel c.num = "A"))) := by
  unfold renderedCriteria generateBuckets
  rw [buckets_foldl]
  simp [rendererRows, List.append_assoc]

theorem renderedCriteria_perm (data : List ConsolidatedItem) :
    (renderedCriteria data).Perm (rendererRows data) := by
  rw [renderedCriteria_eq]
  refine List.Perm.trans ?_
    (List.filter_append_perm (fun c => decide (getWCAGLevel c.num = "A")) (rendererRows data))
  refine List.Perm.append_left _ ?_
  have h2 := List.filter_append_perm (fun c => decide (getWCAGLevel c.num = "AA"))
    ((rendererRows data).filter (fun c => !decide (getWCAGLevel c.num = "A")))
  rw [List.filter_filter, List.filter_filter] at h2
  exact h2

theorem mem_rendererRows {data : List ConsolidatedItem} {c : Criterion}
    (h : c ∈ renderedCriteria data) : c ∈ rendererRows data :=
  (renderedCriteria_perm data).mem_iff.mp h

/-- C1: every row the renderer emits whose criterion code is in the static
forced-not-applicable table (a table disjoint from the WCAG 2.2 exclusion
set) has adherence level not-applicable and narrative exactly
"Not applicable.", whatever assessment level and narrative the upstream
consolidated row carried. -/
theorem C1_forced_na_wins (data : List ConsolidatedItem) (c : Criterion)
    (hmem : c ∈ renderedCriteria data) (hna : c.num ∈ naList) :
    c.adherenceLevel = "not-applicable" ∧ c.notes = "Not applicable." := by
  have h := mem_rendererRows hmem
  rw [rendererRows, List.mem_append] at h
  rcases h with h | h
  · rw [List.mem_filterMap] at h
    obtain ⟨item, _, hitem⟩ := h
    exact processItem_na hitem (by simpa [isNotApplicable] using hna)
  · obtain ⟨_, h1, h2, _, _⟩ := missingNA_mem h
    exact ⟨h1, h2⟩

/-- Witness for C1 at the spec scenario: the input row for code `wcag221`
(that is, 2.2.1, which is in the forced table) with upstream level
SUPPORTED renders as not-applicable with narrative "Not applicable.". -/
theorem C1_forced_na_wins_witness :
    (⟨"2.2.1", "not-applicable", "Not applicable.", "3", "111"⟩ : Criterion).adherenceLevel =
        "not-applicable" ∧
      (⟨"2.2.1", "not-applicable", "Not applicable.", "3", "111"⟩ : Criterion).notes =
        "Not applicable." :=
  C1_forced_na_wins [⟨"wcag221", "SUPPORTED", "great", "3", "111"⟩]
    ⟨"2.2.1", "not-applicable", "Not applicable.", "3", "111"⟩ (by decide) (by decide)

/-- C4: the upstream assessment levels map deterministically onto the
five-value adherence vocabulary (SUPPORTED to supports,
PARTIALLY_SUPPORTED to partially-supports, NOT_SUPPORTED to
does-not-support, NOT_APPLICABLE to not-applicable), every other upstream
level maps to not-evaluated, and a 1.1.1 row with level NOT_SUPPORTED and
a nonempty narrative renders as does-not-support with the narrative
retained verbatim. -/
theorem C4_level_mapping :
    convertAssessmentToAdherence "SUPPORTED" = "supports" ∧
    convertAssessmentToAdherence "PARTIALLY_SUPPORTED" = "partially-supports" ∧
    convertAssessmentToAdherence "NOT_SUPPORTED" = "does-not-support" ∧
    convertAssessmentToAdherence "NOT_APPLICABLE" = "not-applicable" ∧
    (∀ s : String, s ≠ "SUPPORTED" → s ≠ "PARTIALLY_SUPPORTED" → s ≠ "NOT_SUPPORTED" →
      s ≠ "NOT_APPLICABLE" → convertAssessmentToAdherence s = "not-evaluated") ∧
    (∀ item : ConsolidatedItem, convertWCAGFormat item.wcagSC = "1.1.1" →
      item.acrAssessment = "NOT_SUPPORTED" → item.acrSummary ≠ "" →
      processItem item = some ⟨"1.1.1", "does-not-support", item.acrSummary,
        item.issueCount, item.issueIds⟩) := by
  refine ⟨by decide, by decide, by decide, by decide, ?_, ?_⟩
  · intro s h1 h2 h3 h4
    unfold convertAssessmentToAdherence
    split_ifs <;> simp_all
  · intro item hnum hass hsum
    have h22 : convertWCAGFormat item.wcagSC ∉ wcag22Criteria := by rw [hnum]; decide
    have hna : isNotApplicable (convertWCAGFormat item.wcagSC) = false := by rw [hnum]; decide
    rw [processItem_normal h22 hna, hnum, hass]
    simp [convertAssessmentToAdherence, hsum]

/-- Witness for C4: an unknown level maps to not-evaluated, and the spec
scenario row (1.1.1, NOT_SUPPORTED, narrative X) renders as
does-not-support with X retained. -/
theorem C4_level_mapping_witness :
    convertAssessmentToAdherence "BOGUS" = "not-evaluated" ∧
      processItem ⟨"wcag111", "NOT_SUPPORTED", "X", "2", "9"⟩ =
        some ⟨"1.1.1", "does-not-support", "X", "2", "9"⟩ := by
  constructor
  · exact C4_level_mapping.2.2.2.2.1 "BOGUS" (by decide) (by decide) (by decide) (by decide)
  · exact C4_level_mapping.2.2.2.2.2 ⟨"wcag111", "NOT_SUPPORTED", "X", "2", "9"⟩
      (by decide) (by decide) (by decide)

/-- C5 counterexample: a row whose mapped adherence is supports and whose
code (9.9.9) has no canned positive statement, but whose upstream
narrative — the empty string — is not retained: the renderer renders the
fixed default text instead. -/
theorem C5_counterexample :
    processItem ⟨"wcag999", "SUPPORTED", "", "1", "42"⟩ =
        some ⟨"9.9.9", "supports", "No assessment available", "1", "42"⟩ ∧
      getPositiveStatement "9.9.9" = none ∧
      (⟨"9.9.9", "supports", "No assessment available", "1", "42"⟩ : Criterion).notes ≠
        (⟨"wcag999", "SUPPORTED", "", "1", "42"⟩ : ConsolidatedItem).acrSummary := by
  refine ⟨by decide, by decide, by decide⟩

/-- C5 (amended): for every renderer input row that is neither excluded
nor forced not-applicable and whose mapped adherence is supports: when a
canned positive statement exists for the code, the rendered narrative is
that canned text verbatim (never the upstream narrative); when no canned
entry exists, a nonempty upstream narrative is retained verbatim (an
empty upstream narrative is replaced by the fixed default text
"No assessment available"). -/
theorem C5_supports_canned_narrative (item : ConsolidatedItem)
    (h22 : convertWCAGFormat item.wcagSC ∉ wcag22Criteria)
    (hna : isNotApplicable (convertWCAGFormat item.wcagSC) = false)
    (hsup : convertAssessmentToAdherence item.acrAssessment = "supports") :
    (∀ s, getPositiveStatement (convertWCAGFormat item.wcagSC) = some s →
      processItem item = some ⟨convertWCAGFormat item.wcagSC, "supports", s,
        item.issueCount, item.issueIds⟩) ∧
    (getPositiveStatement (convertWCAGFormat item.wcagSC) = none →
      item.acrSummary ≠ "" →
      processItem item = some ⟨convertWCAGFormat item.wcagSC, "supports",
        item.acrSummary, item.issueCount, item.issueIds⟩) := by
  constructor
  · intro s hs
    rw [processItem_normal h22 hna, hsup, hs]
    simp
  · intro hnone hne
    rw [processItem_normal h22 hna, hsup, hnone]
    simp [hne]

/-- Witness for C5: a 1.1.1 row with level SUPPORTED renders with the
canned 1.1.1 narrative, not the upstream narrative. -/
theorem C5_supports_canned_narrative_witness :
    processItem ⟨"wcag111", "SUPPORTED", "upstream text", "2", "7"⟩ =
      some ⟨"1.1.1", "supports",
        "Images and form elements have text alternatives that adequately describe the purpose and meaning",
        "2", "7"⟩ := by
  have h := C5_supports_canned_narrative ⟨"wcag111", "SUPPORTED", "upstream text", "2", "7"⟩
    (by decide) (by decide) (by decide)
  simpa using h.1 _ (by decide)

/-! ## Exhaustiveness of the forced-not-applicable codes (C3) -/

theorem filterMap_processItem_nums (data : List ConsolidatedItem) :
    (data.filterMap processItem).map (·.num) = processedWcagNums data := by
  induction data with
  | nil => rfl
  | cons item rest ih =>
    by_cases h22 : convertWCAGFormat item.wcagSC ∈ wcag22Criteria
    · rw [List.filterMap_cons, processItem_skip h22]
      simpa [processedWcagNums, List.filterMap_cons, h22] using ih
    · cases hna : isNotApplicable (convertWCAGFormat item.wcagSC) with
      | true =>
        rw [List.filterMap_cons, processItem_forced h22 hna]
        simpa [processedWcagNums, List.filterMap_cons, h22] using ih
      | false =>
        rw [List.filterMap_cons, processItem_normal h22 hna]
        simpa [processedWcagNums, List.filterMap_cons, h22] using ih

theorem processedWcagNums_eq (data : List ConsolidatedItem) :
    processedWcagNums data =
      (data.map fun item => convertWCAGFormat item.wcagSC).filter
        (fun n => !wcag22Criteria.contains n) := by
  induction data with
  | nil => rfl
  | cons item rest ih =>
    by_cases h : convertWCAGFormat item.wcagSC ∈ wcag22Criteria
    · simp only [processedWcagNums, List.filterMap_cons, List.map_cons, List.filter_cons]
      simp [h]
      simpa [processedWcagNums] using ih
    · simp only [processedWcagNums, List.filterMap_cons, List.map_cons, List.filter_cons]
      simp [h]
      simpa [processedWcagNums] using ih

theorem missingNA_nums (data : List ConsolidatedItem) :
    (missingNACriteria data).map (·.num) =
      naList.filter fun m => !((processedWcagNums data).contains m) := by
  unfold missingNACriteria
  generalize naList = l
  induction l with
  | nil => rfl
  | cons a l ih =>
    by_cases h : a ∈ processedWcagNums data
    · simp only [List.filterMap_cons, List.filter_cons]
      simp [h]
      simpa using ih
    · simp only [List.filterMap_cons, List.filter_cons]
      simp [h]
      simpa using ih

/-- C3: assuming the upstream rows carry pairwise distinct criterion codes
(the Aggregator emits at most one row per code), every code of the
forced-not-applicable table appears exactly once among the criterion
entries the renderer emits — synthesized as a zero-member
not-applicable row when no upstream row produced it. -/
theorem C3_na_exactly_once (data : List ConsolidatedItem)
    (hnd : (data.map fun item => convertWCAGFormat item.wcagSC).Nodup) :
    ∀ n ∈ naList, ((renderedCriteria data).map (·.num)).count n = 1 ∧
      (n ∉ processedWcagNums data →
        (⟨n, "not-applicable", "Not applicable.", "0", ""⟩ : Criterion) ∈
          renderedCriteria data) := by
  intro n hn
  constructor
  · rw [((renderedCriteria_perm data).map (·.num)).count_eq]
    rw [rendererRows, List.map_append, List.count_append,
      filterMap_processItem_nums, missingNA_nums]
    by_cases hp : n ∈ processedWcagNums data
    · have h1 : (processedWcagNums data).count n = 1 := by
        refine List.count_eq_one_of_mem ?_ hp
        rw [processedWcagNums_eq]
        exact hnd.filter _
      have h2 : (naList.filter fun m => !((processedWcagNums data).contains m)).count n = 0 := by
        refine List.count_eq_zero_of_not_mem ?_
        intro hmem
        rw [List.mem_filter] at hmem
        simp [hp] at hmem
      omega
    · have h1 : (processedWcagNums data).count n = 0 :=
        List.count_eq_zero_of_not_mem hp
      have h2 : (naList.filter fun m => !((processedWcagNums data).contains m)).count n = 1 := by
        refine List.count_eq_one_of_mem ((by decide : naList.Nodup).filter _) ?_
        rw [List.mem_filter]
        simp [hn, hp]
      omega
  · intro hp
    rw [(renderedCriteria_perm data).mem_iff, rendererRows, List.mem_append]
    right
    unfold missingNACriteria
    rw [List.mem_filterMap]
    refine ⟨n, hn, ?_⟩
    simp [hp]

/-- Witness for C3: with a single upstream row (code 2.2.1), the forced
code 1.2.1 — absent upstream — appears exactly once in the rendered
output, as the synthesized zero-member not-applicable row. -/
theorem C3_na_exactly_once_witness :
    ((renderedCriteria [⟨"wcag221", "SUPPORTED", "great", "3", "111"⟩]).map (·.num)).count
        "1.2.1" = 1 ∧
      (⟨"1.2.1", "not-applicable", "Not applicable.", "0", ""⟩ : Criterion) ∈
        renderedCriteria [⟨"wcag221", "SUPPORTED", "great", "3", "111"⟩] := by
  have h := C3_na_exactly_once [⟨"wcag221", "SUPPORTED", "great", "3", "111"⟩]
    (by decide) "1.2.1" (by decide)
  exact ⟨h.1, h.2 (by decide)⟩

/-! ## CSV field-count filtering (C10) -/

/-- C10: the shared CSV parser keeps exactly the data lines whose parsed
field count equals the header field count — every produced row is the
header list zipped with such a line's fields — and a record whose quoted
field embeds a line break (as the writer `escapeCSV` produces) is torn by
the newline split and silently dropped: no row and no error results. -/
theorem C10_csv_line_filtering :
    (∀ (csvContent : String) (row : List (String × String)),
      row ∈ parseCSV csvContent →
      ∃ line ∈ (csvLines csvContent).tail,
        (parseCSVLine line).length = (csvHeaders csvContent).length ∧
        row = (csvHeaders csvContent).zip (parseCSVLine line)) ∧
    parseCSV ("A,B\n" ++ escapeCSV "x\ny" ++ "," ++ escapeCSV "z") = [] := by
  constructor
  · intro csvContent row hrow
    unfold parseCSV at hrow
    split at hrow
    · exact absurd hrow (by simp)
    · rename_i hlines
      rw [List.mem_filterMap] at hrow
      obtain ⟨line, hline, hval⟩ := hrow
      by_cases hlen : (parseCSVLine line).length = (csvHeaders csvContent).length
      · simp only [hlen, if_true] at hval
        refine ⟨line, ?_, hlen, ?_⟩
        · rw [hlines]; simpa using hline
        · cases hval; rfl
      · simp only [hlen, if_false] at hval
        exact absurd hval (by simp)
  · decide

/-- Witness for C10: a well-formed two-column line parses into the
header-zipped row, produced from a line of matching field count. -/
theorem C10_csv_line_filtering_witness :
    ∃ line ∈ (csvLines "A,B\n1,2").tail,
      (parseCSVLine line).length = (csvHeaders "A,B\n1,2").length ∧
      ([("A", "1"), ("B", "2")] : List (String × String)) =
        (csvHeaders "A,B\n1,2").zip (parseCSVLine line) :=
  C10_csv_line_filtering.1 "A,B\n1,2" [("A", "1"), ("B", "2")] (by decide)

/-! ## Collector deduplication (C9) -/

theorem parseStep_invariant (wcag id : String) (ms : List RawMatch)
    (found : List String) (acc : List CollectedIssue)
    (hcount : acc.countP (fun i => decide (i.issueId = id)) =
      (if found.contains id then 1 else 0))
    (hw : ∀ i ∈ acc, i.wcagCriteria = wcag) :
    let st := ms.foldl (parseStep wcag) (found, acc)
    st.2.countP (fun i => decide (i.issueId = id)) = (if st.1.contains id then 1 else 0) ∧
    (∀ i ∈ st.2, i.wcagCriteria = wcag) ∧
    ((found.contains id = true ∨
        ∃ m ∈ ms, m.issueId = id ∧ m.issueId ≠ "" ∧ m.title ≠ "") →
      st.1.contains id = true) := by
  induction ms generalizing found acc with
  | nil =>
    refine ⟨hcount, hw, ?_⟩
    rintro (h | ⟨m, hm, _⟩)
    · exact h
    · cases hm
  | cons m ms ih =>
    rw [List.foldl_cons]
    by_cases hskip : m.issueId = "" ∨ m.title = ""
    · have hstep : parseStep wcag (found, acc) m = (found, acc) := by
        unfold parseStep
        rcases hskip with h | h <;> simp [h]
      rw [hstep]
      obtain ⟨h1, h2, h3⟩ := ih found acc hcount hw
      refine ⟨h1, h2, ?_⟩
      rintro (h | ⟨m2, hm2, hid, hne, hti⟩)
      · exact h3 (Or.inl h)
      · rcases List.mem_cons.mp hm2 with rfl | hm3
        · exact absurd hskip (by simp [hne, hti])
        · exact h3 (Or.inr ⟨m2, hm3, hid, hne, hti⟩)
    · push_neg at hskip
      obtain ⟨hne, hti⟩ := hskip
      by_cases hdup : m.issueId ∈ found
      · have hstep : parseStep wcag (found, acc) m = (found, acc) := by
          unfold parseStep
          simp [hne, hti, hdup]
        rw [hstep]
        obtain ⟨h1, h2, h3⟩ := ih found acc hcount hw
        refine ⟨h1, h2, ?_⟩
        rintro (h | ⟨m2, hm2, hid, hne2, hti2⟩)
        · exact h3 (Or.inl h)
        · rcases List.mem_cons.mp hm2 with rfl | hm3
          · exact h3 (Or.inl (by subst hid; simpa using hdup))
          · exact h3 (Or.inr ⟨m2, hm3, hid, hne2, hti2⟩)
      · have hstep : parseStep wcag (found, acc) m =
            (found ++ [m.issueId], acc ++ [mkCollectedIssue wcag m]) := by
          unfold parseStep
          simp [hne, hti, hdup]
        rw [hstep]
        have hid2 : (mkCollectedIssue wcag m).issueId = m.issueId := rfl
        have hcount2 : (acc ++ [mkCollectedIssue wcag m]).countP
            (fun i => decide (i.issueId = id)) =
            (if (found ++ [m.issueId]).contains id then 1 else 0) := by
          rw [List.countP_append, hcount]
          by_cases hid : m.issueId = id
          · subst hid
            simp [hid2, hdup]
          · have hid3 : ¬ id = m.issueId := fun h => hid h.symm
            simp [hid2, hid, hid3]
        have hw2 : ∀ i ∈ acc ++ [mkCollectedIssue wcag m], i.wcagCriteria = wcag := by
          intro i hi
          rcases List.mem_append.mp hi with hi | hi
          · exact hw i hi
          · rcases List.mem_singleton.mp hi
            rfl
        obtain ⟨h1, h2, h3⟩ := ih (found ++ [m.issueId]) (acc ++ [mkCollectedIssue wcag m])
          hcount2 hw2
        refine ⟨h1, h2, ?_⟩
        rintro (h | ⟨m2, hm2, hid, hne2, hti2⟩)
        · refine h3 (Or.inl ?_)
          simp only [List.contains_eq_any_beq, List.any_append] at h ⊢
          simp [h]
        · rcases List.mem_cons.mp hm2 with rfl | hm3
          · refine h3 (Or.inl ?_)
            subst hid
            simp
          · exact h3 (Or.inr ⟨m2, hm3, hid, hne2, hti2⟩)

/-- C9: within one parsed criterion page, when some pattern match carries
a given external issue id (with a nonempty id and title), the parse
result contains exactly one record with that id — duplicates across the
four patterns are suppressed by the shared `foundIssues` set — and every
record carries the page's criterion code, so exactly one record exists
for the (criterion code, external id) pair. -/
theorem C9_dedup_by_issue_id (ms : List RawMatch) (wcag id : String)
    (hex : ∃ m ∈ ms, m.issueId = id ∧ m.issueId ≠ "" ∧ m.title ≠ "") :
    (parseIssuesFromHTML ms wcag).countP (fun i => decide (i.issueId = id)) = 1 ∧
    ∀ i ∈ parseIssuesFromHTML ms wcag, i.wcagCriteria = wcag := by
  have h := parseStep_invariant wcag id ms [] [] (by simp) (by simp)
  obtain ⟨h1, h2, h3⟩ := h
  have hfound := h3 (Or.inr hex)
  unfold parseIssuesFromHTML
  exact ⟨by rw [h1, hfound]; rfl, h2⟩

/-- Witness for C9: two patterns match the same issue id 123 on the
wcag111 page; the parse result contains exactly one record for it. -/
theorem C9_dedup_by_issue_id_witness :
    (parseIssuesFromHTML
        [⟨"/project/drupal/issues/123", some "drupal", "123", "Fix contrast"⟩,
         ⟨"https://www.drupal.org/project/drupal/issues/123", some "drupal", "123",
           "Fix contrast"⟩]
        "wcag111").countP (fun i => decide (i.issueId = "123")) = 1 :=
  (C9_dedup_by_issue_id
    [⟨"/project/drupal/issues/123", some "drupal", "123", "Fix contrast"⟩,
     ⟨"https://www.drupal.org/project/drupal/issues/123", some "drupal", "123",
       "Fix contrast"⟩]
    "wcag111" "123"
    ⟨⟨"/project/drupal/issues/123", some "drupal", "123", "Fix contrast"⟩,
      by decide, by decide, by decide, by decide⟩).1

/-! ## Summarizer response parsing (C8) -/

theorem afterFirst_eq_none {s pat : String} (h : strContains s pat = false) :
    afterFirst s pat = none := by
  unfold strContains at h
  unfold afterFirst
  rcases hsp : splitStr pat s with _ | ⟨a, _ | ⟨b, rest⟩⟩
  · rfl
  · rfl
  · rw [hsp] at h
    simp at h

/-- C8: each of the four labeled sections is extracted by locating its
label and taking the trimmed text up to the next label or the end of the
response, and a section whose label is missing yields the fixed
placeholder for that field — in particular a response lacking
`DEVELOPER_NOTE:` produces the fixed developer-note placeholder, with no
exception anywhere (the parser is a total function). -/
theorem C8_label_extraction :
    (∀ text : String,
      (strContains text "ACR_NOTE:" = false →
        (parseSummaryResponse text).acrNote = "Unable to generate ACR note") ∧
      (strContains text "DEVELOPER_NOTE:" = false →
        (parseSummaryResponse text).developerNote = "Unable to generate developer note") ∧
      (strContains text "TITLE_ASSESSMENT:" = false →
        (parseSummaryResponse text).titleAssessment = "Unable to assess title") ∧
      (strContains text "WCAG_ASSESSMENT:" = false →
        (parseSummaryResponse text).wcagAssessment = "Unable to assess WCAG classification")) ∧
    parseSummaryResponse
        ("ACR_NOTE: Affects people without vision.\nDEVELOPER_NOTE: Patch needs rebase.\n" ++
          "TITLE_ASSESSMENT: TITLE_OK: Current title accurately reflects the issue\n" ++
          "WCAG_ASSESSMENT: WCAG_AGREE: 1.1.1") =
      ⟨"Affects people without vision.", "Patch needs rebase.",
        "TITLE_OK: Current title accurately reflects the issue", "WCAG_AGREE: 1.1.1"⟩ := by
  constructor
  · intro text
    refine ⟨?_, ?_, ?_, ?_⟩ <;> intro h <;>
      simp [parseSummaryResponse, jsRegexSection, jsRegexToEnd, afterFirst_eq_none h]
  · decide

/-- Witness for C8 at the spec scenario: a response without a
`DEVELOPER_NOTE:` label parses to the fixed developer-note placeholder. -/
theorem C8_label_extraction_witness :
    (parseSummaryResponse "no labels at all").developerNote =
      "Unable to generate developer note" :=
  (C8_label_extraction.1 "no labels at all").2.1 (by decide)

/-! ## Aggregator 503 handling (C2) -/

/-- C2 (code bug): when all five fetch attempts for a criterion group
return HTTP 503, `fetchWithRetry` runs off the end of its loop and the
promise resolves `undefined`; `response.json()` then throws a TypeError
whose message mentions neither `503` nor `overloaded`, so the catch in
`generateWCAGSummary` produces the `ERROR` sentinel instead of
`REQUIRES_REVIEW`, and `consolidateWCAGSummaries` does not queue the
criterion for the 30-second bulk retry pass (which selects only
`REQUIRES_REVIEW` rows): the run completes with an `ERROR` row even
though the retry-pass oracle would have succeeded. -/
theorem C2_all_503_yields_error_row :
    fetchWithRetry (List.replicate 5 (.httpError 503 "The model is overloaded")) =
        .undef ∧
      (generateWCAGSummary [⟨"111", "wcag111", "t", "n"⟩]
          (List.replicate 5 (.httpError 503 "The model is overloaded"))).assessment =
        "ERROR" ∧
      consolidateWCAGSummaries [⟨"wcag111", "111", "t"⟩] [⟨"111", "n"⟩]
          (fun _ => List.replicate 5 (.httpError 503 "The model is overloaded"))
          (fun _ => [.success "ACR_ASSESSMENT: SUPPORTED\nACR_SUMMARY: fine"]) =
        [⟨"wcag111", "ERROR",
          "Error generating summary: Cannot read properties of undefined (reading 'json')",
          1, "111"⟩] := by
  refine ⟨by decide, by decide, by decide⟩

/-! ## Collector retry path (C7) -/

/-- C7 (code bug): a request whose first attempt fails is never retried —
the retry path assigns to the getter-only `controller.signal` accessor
(and then to the `const timeoutId`) in strict mode, so a TypeError
propagates after the backoff delay even though both remaining attempts
would have succeeded; a success on the first attempt resolves normally,
and only a failure on the very last attempt surfaces as the network
error itself. -/
theorem C7_retry_path_throws :
    fetchWithTimeout [.failure "network timeout", .ok "page", .ok "page"] =
        .typeError signalSetterMsg ∧
      fetchWithTimeout [.ok "page", .ok "page", .ok "page"] = .resolved "page" ∧
      fetchWithTimeout [.failure "final timeout"] = .fetchError "final timeout" := by
  refine ⟨by decide, by decide, by decide⟩

/-! ## Aggregator grouping and ordering (C6) -/

theorem pushGroup_keys (groups : List (String × List WCAGGroupIssue)) (key : String)
    (g : WCAGGroupIssue) : (pushGroup groups key g).map (·.1) = groups.map (·.1) := by
  unfold pushGroup
  rw [List.map_map]
  apply List.map_congr_left
  intro kv _
  by_cases h : kv.1 = key <;> simp [h]

theorem groupStep_keys (summaries : List IssueSummaryRow)
    (groups : List (String × List WCAGGroupIssue)) (issue : DetailedIssue) :
    (groupStep summaries groups issue).map (·.1) =
      if issue.wcagSC ∈ groups.map (·.1) then groups.map (·.1)
      else groups.map (·.1) ++ [issue.wcagSC] := by
  unfold groupStep
  by_cases h : issue.wcagSC ∈ groups.map (·.1)
  · have hany : (groups.any fun kv => decide (kv.1 = issue.wcagSC)) = true := by
      rw [List.any_eq_true]
      obtain ⟨kv, hkv, he⟩ := List.mem_map.mp h
      exact ⟨kv, hkv, by simp [he]⟩
    rw [if_pos h]
    rcases hsm : summaryMapGet summaries issue.issueId with _ | s
    · simp [hany, hsm]
    · simp [hany, hsm, pushGroup_keys]
  · have hany : (groups.any fun kv => decide (kv.1 = issue.wcagSC)) = false := by
      rw [List.any_eq_false]
      intro kv hkv
      simp only [decide_eq_true_eq]
      intro he
      exact h (List.mem_map.mpr ⟨kv, hkv, he⟩)
    rw [if_neg h]
    rcases hsm : summaryMapGet summaries issue.issueId with _ | s
    · simp [hany, hsm]
    · simp [hany, hsm, pushGroup_keys]

theorem wcagGroups_keys_aux (summaries : List IssueSummaryRow)
    (issues : List DetailedIssue) (groups0 : List (String × List WCAGGroupIssue))
    (hnd : (groups0.map (·.1)).Nodup) :
    ((issues.foldl (groupStep summaries) groups0).map (·.1)).Nodup ∧
    (∀ c, c ∈ (issues.foldl (groupStep summaries) groups0).map (·.1) ↔
      c ∈ groups0.map (·.1) ∨ c ∈ issues.map (·.wcagSC)) := by
  induction issues generalizing groups0 with
  | nil => simpa using hnd
  | cons issue rest ih =>
    rw [List.foldl_cons]
    have hkeys := groupStep_keys summaries groups0 issue
    by_cases h : issue.wcagSC ∈ groups0.map (·.1)
    · rw [if_pos h] at hkeys
      obtain ⟨ihnd, ihmem⟩ := ih (groupStep summaries groups0 issue) (by rw [hkeys]; exact hnd)
      refine ⟨ihnd, fun c => ?_⟩
      rw [ihmem c, hkeys, List.map_cons, List.mem_cons]
      constructor
      · rintro (hc | hc)
        · exact Or.inl hc
        · exact Or.inr (Or.inr hc)
      · rintro (hc | rfl | hc)
        · exact Or.inl hc
        · exact Or.inl h
        · exact Or.inr hc
    · rw [if_neg h] at hkeys
      have hnd2 : ((groupStep summaries groups0 issue).map (·.1)).Nodup := by
        rw [hkeys, List.nodup_append]
        exact ⟨hnd, by simp, by simpa using fun hc => h hc⟩
      obtain ⟨ihnd, ihmem⟩ := ih (groupStep summaries groups0 issue) hnd2
      refine ⟨ihnd, fun c => ?_⟩
      rw [ihmem c, hkeys, List.map_cons, List.mem_cons, List.mem_append]
      constructor
      · rintro (⟨hc | hc⟩ | hc)
        · exact Or.inl hc
        · exact Or.inr (Or.inl (by simpa using hc))
        · exact Or.inr (Or.inr hc)
      · rintro (hc | rfl | hc)
        · exact Or.inl (Or.inl hc)
        · exact Or.inl (Or.inr (by simp))
        · exact Or.inr hc

theorem wcagGroups_keys (detailed : List DetailedIssue) (summaries : List IssueSummaryRow) :
    ((wcagGroups detailed summaries).map (·.1)).Nodup ∧
    ∀ c, c ∈ (wcagGroups detailed summaries).map (·.1) ↔ c ∈ detailed.map (·.wcagSC) := by
  obtain ⟨h1, h2⟩ := wcagGroups_keys_aux summaries detailed [] (by simp)
  exact ⟨h1, fun c => by simpa using h2 c⟩

theorem mainPass_keys (groups : List (String × List WCAGGroupIssue))
    (att1 : String → List AttemptResult) :
    (groups.map (mainPassRow att1)).map (·.wcagSC) = groups.map (·.1) := by
  rw [List.map_map]
  apply List.map_congr_left
  intro kv _
  rfl

theorem replaceFirst_map_eq {α β} (f : α → β) (p : α → Bool) (x : α) (l : List α)
    (hp : ∀ a, p a = true → f a = f x) :
    (replaceFirst p x l).map f = l.map f := by
  induction l with
  | nil => rfl
  | cons a l ih =>
    unfold replaceFirst
    by_cases h : p a
    · simp [h, hp a h]
    · simp [h, ih]

theorem retry_foldl_keys (att2 : String → List AttemptResult)
    (failed : List (String × List WCAGGroupIssue)) (results : List ConsolidatedRow) :
    (failed.foldl (retryPass att2) results).map (·.wcagSC) = results.map (·.wcagSC) := by
  induction failed generalizing results with
  | nil => rfl
  | cons kv failed ih =>
    rw [List.foldl_cons, ih]
    apply replaceFirst_map_eq
    intro r hr
    simpa using hr

theorem insertLe_perm (le : α → α → Bool) (a : α) (l : List α) :
    (insertLe le a l).Perm (a :: l) := by
  induction l with
  | nil => exact List.Perm.refl _
  | cons b bs ih =>
    unfold insertLe
    by_cases h : le a b
    · simp [h]
    · simp only [h, if_false, Bool.false_eq_true]
      exact ((ih.cons b).trans (List.Perm.swap a b bs))

theorem sortByLe_perm (le : α → α → Bool) (l : List α) : (sortByLe le l).Perm l := by
  induction l with
  | nil => exact List.Perm.refl _
  | cons a l ih =>
    unfold sortByLe at ih ⊢
    rw [List.foldr_cons]
    exact (insertLe_perm le a _).trans (ih.cons a)

theorem insertLe_sorted (le : α → α → Bool)
    (htot : ∀ a b, le a b = true ∨ le b a = true)
    (htrans : ∀ a b c, le a b = true → le b c = true → le a c = true)
    (a : α) (l : List α) (hs : l.Pairwise (fun x y => le x y = true)) :
    (insertLe le a l).Pairwise (fun x y => le x y = true) := by
  induction l with
  | nil => simp [insertLe]
  | cons b bs ih =>
    rw [List.pairwise_cons] at hs
    obtain ⟨hb, hbs⟩ := hs
    unfold insertLe
    by_cases h : le a b
    · rw [if_pos h, List.pairwise_cons]
      refine ⟨?_, List.pairwise_cons.mpr ⟨hb, hbs⟩⟩
      intro x hx
      rcases List.mem_cons.mp hx with rfl | hx
      · exact h
      · exact htrans a b x h (hb x hx)
    · rw [if_neg h, List.pairwise_cons]
      refine ⟨?_, ih hbs⟩
      intro x hx
      have hx2 := (insertLe_perm le a bs).mem_iff.mp hx
      rcases List.mem_cons.mp hx2 with hxa | hx3
      · subst hxa
        rcases htot x b with ht | ht
        · exact absurd ht h
        · exact ht
      · exact hb x hx3

theorem sortByLe_sorted (le : α → α → Bool)
    (htot : ∀ a b, le a b = true ∨ le b a = true)
    (htrans : ∀ a b c, le a b = true → le b c = true → le a c = true)
    (l : List α) : (sortByLe le l).Pairwise (fun x y => le x y = true) := by
  induction l with
  | nil => simp [sortByLe]
  | cons a l ih =>
    unfold sortByLe at ih ⊢
    rw [List.foldr_cons]
    exact insertLe_sorted le htot htrans a _ ih

theorem charListLe_total : ∀ a b : List Char, charListLe a b = true ∨ charListLe b a = true
  | [], _ => Or.inl rfl
  | _ :: _, [] => Or.inr rfl
  | x :: xs, y :: ys => by
    by_cases h : x = y
    · subst h
      simpa [charListLe] using charListLe_total xs ys
    · rcases lt_or_gt_of_ne h with hlt | hlt
      · exact Or.inl (by simp [charListLe, h, hlt])
      · have hyx : ¬ y = x := fun he => h he.symm
        exact Or.inr (by simp [charListLe, hyx, hlt])

theorem charListLe_trans :
    ∀ a b c : List Char, charListLe a b = true → charListLe b c = true →
      charListLe a c = true
  | [], _, _, _, _ => rfl
  | _ :: _, [], _, hab, _ => by simp [charListLe] at hab
  | _ :: _, _ :: _, [], _, hbc => by simp [charListLe] at hbc
  | x :: xs, y :: ys, z :: zs, hab, hbc => by
    by_cases hxy : x = y <;> by_cases hyz : y = z
    · subst hxy; subst hyz
      simp only [charListLe, if_pos rfl] at hab hbc ⊢
      exact charListLe_trans xs ys zs hab hbc
    · subst hxy
      simp only [charListLe, if_pos rfl] at hab
      simp only [charListLe, if_neg hyz, decide_eq_true_eq] at hbc
      simp only [charListLe, if_neg hyz, decide_eq_true_eq]
      exact hbc
    · subst hyz
      simp only [charListLe, if_neg hxy, decide_eq_true_eq] at hab
      simp only [charListLe, if_neg hxy, decide_eq_true_eq]
      exact hab
    · simp only [charListLe, if_neg hxy, decide_eq_true_eq] at hab
      simp only [charListLe, if_neg hyz, decide_eq_true_eq] at hbc
      have hxz : x < z := lt_trans hab hbc
      have hne : x ≠ z := ne_of_lt hxz
      simp only [charListLe, if_neg hne, decide_eq_true_eq]
      exact hxz

theorem strLe_total (s t : String) : strLe s t = true ∨ strLe t s = true :=
  charListLe_total s.data t.data

theorem strLe_trans (s t u : String) :
    strLe s t = true → strLe t u = true → strLe s u = true :=
  charListLe_trans s.data t.data u.data

theorem countP_eq_one_of_nodup_mem {α} [DecidableEq α] {l : List α} {c : α}
    (hnd : l.Nodup) (hm : c ∈ l) : l.countP (fun x => decide (x = c)) = 1 := by
  induction l with
  | nil => cases hm
  | cons a l ih =>
    rw [List.countP_cons]
    rcases List.mem_cons.mp hm with rfl | hm2
    · have h0 : l.countP (fun x => decide (x = c)) = 0 := by
        rw [List.countP_eq_zero]
        intro x hx
        simp only [decide_eq_true_eq]
        rintro rfl
        exact (List.nodup_cons.mp hnd).1 hx
      simp [h0]
    · rw [ih (List.nodup_cons.mp hnd).2 hm2]
      have hne : ¬ (a = c) := by
        rintro rfl
        exact (List.nodup_cons.mp hnd).1 hm2
      simp [hne]

/-- C6: for every input, each criterion code occurring among the detailed
issue rows yields exactly one row in the consolidated output — whether
its main-pass API call succeeded, errored or was replaced in the retry
pass — and the output rows are sorted by criterion code. -/
theorem C6_one_row_per_code (detailed : List DetailedIssue)
    (summaries : List IssueSummaryRow) (att1 att2 : String → List AttemptResult) :
    (∀ c ∈ detailed.map (·.wcagSC),
      (consolidateWCAGSummaries detailed summaries att1 att2).countP
        (fun r => decide (r.wcagSC = c)) = 1) ∧
    (consolidateWCAGSummaries detailed summaries att1 att2).Pairwise
      (fun a b => strLe a.wcagSC b.wcagSC = true) := by
  constructor
  · intro c hc
    unfold consolidateWCAGSummaries
    rw [(sortByLe_perm _ _).countP_eq]
    have hmap : ((((wcagGroups detailed summaries).filter fun kv =>
          decide ((generateWCAGSummary kv.2 (att1 kv.1)).assessment =
            "REQUIRES_REVIEW")).foldl (retryPass att2)
          ((wcagGroups detailed summaries).map (mainPassRow att1))).map (·.wcagSC)) =
        (wcagGroups detailed summaries).map (·.1) := by
      rw [retry_foldl_keys, mainPass_keys]
    have hcount : ∀ (l : List ConsolidatedRow),
        l.map (·.wcagSC) = (wcagGroups detailed summaries).map (·.1) →
        l.countP (fun r => decide (r.wcagSC = c)) = 1 := by
      intro l hl
      have h1 : l.countP (fun r => decide (r.wcagSC = c)) =
          (l.map (·.wcagSC)).countP (fun s => decide (s = c)) := by
        rw [List.countP_map]
        rfl
      rw [h1, hl]
      obtain ⟨hnd, hmem⟩ := wcagGroups_keys detailed summaries
      exact countP_eq_one_of_nodup_mem hnd ((hmem c).mpr hc)
    exact hcount _ hmap
  · unfold consolidateWCAGSummaries
    exact sortByLe_sorted _ (fun (a b : ConsolidatedRow) => strLe_total a.wcagSC b.wcagSC)
      (fun (a b c2 : ConsolidatedRow) => strLe_trans a.wcagSC b.wcagSC c2.wcagSC) _

/-- Witness for C6: with three detailed rows over two criterion codes
(one summary row missing), the consolidated output carries exactly one
row for code wcag142. -/
theorem C6_one_row_per_code_witness :
    (consolidateWCAGSummaries
        [⟨"wcag142", "2", "t2"⟩, ⟨"wcag111", "1", "t1"⟩, ⟨"wcag142", "3", "t3"⟩]
        [⟨"1", "n1"⟩, ⟨"2", "n2"⟩]
        (fun _ => [.success "ACR_ASSESSMENT: SUPPORTED\nACR_SUMMARY: fine"])
        (fun _ => [.success "ACR_ASSESSMENT: SUPPORTED\nACR_SUMMARY: fine"])).countP
      (fun r => decide (r.wcagSC = "wcag142")) = 1 :=
  (C6_one_row_per_code
    [⟨"wcag142", "2", "t2"⟩, ⟨"wcag111", "1", "t1"⟩, ⟨"wcag142", "3", "t3"⟩]
    [⟨"1", "n1"⟩, ⟨"2", "n2"⟩]
    (fun _ => [.success "ACR_ASSESSMENT: SUPPORTED\nACR_SUMMARY: fine"])
    (fun _ => [.success "ACR_ASSESSMENT: SUPPORTED\nACR_SUMMARY: fine"])).1
    "wcag142" (by decide)
